import Mathlib

/-!
# Razorpay payment-gateway integration (`main.go`): verification development

Shallow embedding of the two HTTP handlers of `main.go`
(`createRazorpayOrder`, `PaymentGatewayCallback`) and of
`verifyRazorpaySignature`, together with the Go standard-library routines
they call (`crypto/sha256`, `crypto/hmac`, `crypto/subtle`, `encoding/hex`,
`net/url`) and of the rendering of the callback's responses by gin
(`unicode/utf8`, `encoding/json`), followed by the theorems about them.

Go strings and byte slices are sequences of bytes; they are lists of
`Fin 256` here.  32-bit words of SHA-256 are natural numbers reduced
modulo `2^32`.
-/

set_option autoImplicit false
set_option maxRecDepth 100000

/-! ## Bytes and Go strings -/

/-- One byte. -/
abbrev Byte := Fin 256

/-- A Go `string` / `[]byte`: a finite sequence of bytes. -/
abbrev GoString := List Byte

/-- The bytes of an ASCII literal of the source text. -/
def ascii (s : String) : GoString :=
  s.toList.map (fun c => Fin.ofNat c.toNat)

/-! ## `encoding/hex` -/

namespace hex

/-- The constant `hextable = "0123456789abcdef"` of `encoding/hex`. -/
def hextable : GoString :=
  [48, 49, 50, 51, 52, 53, 54, 55, 56, 57, 97, 98, 99, 100, 101, 102]

/-- Two output bytes for one input byte `v`: `hextable[v>>4]`, `hextable[v&0x0f]`. -/
def encodeByte (v : Byte) : GoString :=
  [hextable.getD (v.val >>> 4) 0, hextable.getD (v.val &&& 0x0f) 0]

/-- Go `hex.EncodeToString`: lowercase hexadecimal encoding of `src`. -/
def EncodeToString : GoString → GoString
  | [] => []
  | v :: rest => encodeByte v ++ EncodeToString rest

end hex

/-! ## `crypto/sha256` -/

namespace sha256

/-- Addition of `uint32` values. -/
def add32 (a b : Nat) : Nat := (a + b) % 4294967296

/-- Bitwise complement of a `uint32` value (`^x`). -/
def not32 (x : Nat) : Nat := 4294967295 - x % 4294967296

/-- Right rotation of a `uint32` by `n` bits, `bits.RotateLeft32(x, -n)`. -/
def rotr (x n : Nat) : Nat :=
  ((x >>> n) ||| (x <<< (32 - n))) % 4294967296

/-- The round constants `_K`. -/
def K : List Nat :=
  [0x428a2f98, 0x71374491, 0xb5c0fbcf, 0xe9b5dba5, 0x3956c25b, 0x59f111f1, 0x923f82a4, 0xab1c5ed5,
   0xd807aa98, 0x12835b01, 0x243185be, 0x550c7dc3, 0x72be5d74, 0x80deb1fe, 0x9bdc06a7, 0xc19bf174,
   0xe49b69c1, 0xefbe4786, 0x0fc19dc6, 0x240ca1cc, 0x2de92c6f, 0x4a7484aa, 0x5cb0a9dc, 0x76f988da,
   0x983e5152, 0xa831c66d, 0xb00327c8, 0xbf597fc7, 0xc6e00bf3, 0xd5a79147, 0x06ca6351, 0x14292967,
   0x27b70a85, 0x2e1b2138, 0x4d2c6dfc, 0x53380d13, 0x650a7354, 0x766a0abb, 0x81c2c92e, 0x92722c85,
   0xa2bfe8a1, 0xa81a664b, 0xc24b8b70, 0xc76c51a3, 0xd192e819, 0xd6990624, 0xf40e3585, 0x106aa070,
   0x19a4c116, 0x1e376c08, 0x2748774c, 0x34b0bcb5, 0x391c0cb3, 0x4ed8aa4a, 0x5b9cca4f, 0x682e6ff3,
   0x748f82ee, 0x78a5636f, 0x84c87814, 0x8cc70208, 0x90befffa, 0xa4506ceb, 0xbef9a3f7, 0xc67178f2]

/-- The chaining value `h[0..7]` of a digest, and the working variables `a..h` of a block. -/
structure Regs where
  a : Nat
  b : Nat
  c : Nat
  d : Nat
  e : Nat
  f : Nat
  g : Nat
  h : Nat
  deriving DecidableEq, Repr

/-- The initial chaining value `init0 .. init7`. -/
def init : Regs :=
  { a := 0x6a09e667, b := 0xbb67ae85, c := 0x3c6ef372, d := 0xa54ff53a,
    e := 0x510e527f, f := 0x9b05688c, g := 0x1f83d9ab, h := 0x5be0cd19 }

/-- Big-endian `uint32` from four bytes of the block. -/
def be32 (b0 b1 b2 b3 : Byte) : Nat :=
  (b0.val <<< 24) ||| (b1.val <<< 16) ||| (b2.val <<< 8) ||| b3.val

/-- First loop of `blockGeneric`: `w[0..15]` from the 64 bytes of a block. -/
def loadWords : GoString → List Nat
  | b0 :: b1 :: b2 :: b3 :: rest => be32 b0 b1 b2 b3 :: loadWords rest
  | _ => []

/-- Second loop of `blockGeneric`: `n` further words, each from `w[i-2]`, `w[i-7]`,
`w[i-15]`, `w[i-16]`. -/
def extend : Nat → List Nat → List Nat
  | 0, w => w
  | n + 1, w =>
    let i := w.length
    let v1 := w.getD (i - 2) 0
    let t1 := rotr v1 17 ^^^ rotr v1 19 ^^^ (v1 >>> 10)
    let v2 := w.getD (i - 15) 0
    let t2 := rotr v2 7 ^^^ rotr v2 18 ^^^ (v2 >>> 3)
    extend n (w ++ [add32 (add32 (add32 t1 (w.getD (i - 7) 0)) t2) (w.getD (i - 16) 0)])

/-- One iteration of the third loop of `blockGeneric`, with `kw = _K[i] + w[i]`'s two
summands given. -/
def round (r : Regs) (k w : Nat) : Regs :=
  let t1 := add32 (add32 (add32 (add32 r.h (rotr r.e 6 ^^^ rotr r.e 11 ^^^ rotr r.e 25))
    ((r.e &&& r.f) ^^^ (not32 r.e &&& r.g))) k) w
  let t2 := add32 (rotr r.a 2 ^^^ rotr r.a 13 ^^^ rotr r.a 22)
    ((r.a &&& r.b) ^^^ (r.a &&& r.c) ^^^ (r.b &&& r.c))
  { a := add32 t1 t2, b := r.a, c := r.b, d := r.c, e := add32 r.d t1, f := r.e, g := r.f, h := r.g }

/-- Third loop of `blockGeneric`: the 64 rounds over `_K` and `w`. -/
def rounds : Regs → List Nat → List Nat → Regs
  | r, k :: ks, w :: ws => rounds (round r k w) ks ws
  | r, _, _ => r

/-- The body of `blockGeneric` for one 64-byte block `p`. -/
def block (dig : Regs) (p : GoString) : Regs :=
  let w := extend 48 (loadWords p)
  let r := rounds dig K w
  { a := add32 dig.a r.a, b := add32 dig.b r.b, c := add32 dig.c r.c, d := add32 dig.d r.d,
    e := add32 dig.e r.e, f := add32 dig.f r.f, g := add32 dig.g r.g, h := add32 dig.h r.h }

/-- The loop of `blockGeneric` over `n` consecutive 64-byte blocks of `p`. -/
def blocks : Nat → Regs → GoString → Regs
  | 0, dig, _ => dig
  | n + 1, dig, p => blocks n (block dig (p.take 64)) (p.drop 64)

/-- The padding `checkSum` appends: `0x80`, zero bytes up to 56 modulo 64, then the
bit length as a big-endian `uint64`. -/
def padding (len : Nat) : GoString :=
  let bits := (len * 8) % 18446744073709551616
  [(0x80 : Byte)] ++ List.replicate ((119 - len % 64) % 64) (0 : Byte) ++
    [Fin.ofNat (bits >>> 56), Fin.ofNat (bits >>> 48), Fin.ofNat (bits >>> 40),
     Fin.ofNat (bits >>> 32), Fin.ofNat (bits >>> 24), Fin.ofNat (bits >>> 16),
     Fin.ofNat (bits >>> 8), Fin.ofNat bits]

/-- Big-endian bytes of a `uint32`. -/
def putUint32 (x : Nat) : GoString :=
  [Fin.ofNat (x >>> 24), Fin.ofNat (x >>> 16), Fin.ofNat (x >>> 8), Fin.ofNat x]

/-- Go `sha256.Sum256` (equally `New`, `Write(data)`, `Sum(nil)`): the 32-byte digest. -/
def Sum256 (data : GoString) : GoString :=
  let p := data ++ padding data.length
  let r := blocks (p.length / 64) init p
  putUint32 r.a ++ putUint32 r.b ++ putUint32 r.c ++ putUint32 r.d ++
    putUint32 r.e ++ putUint32 r.f ++ putUint32 r.g ++ putUint32 r.h

end sha256

/-! ## `crypto/hmac` and `crypto/subtle` -/

namespace hmac

/-- The key as `hmac.New` uses it: hashed when longer than the block size of 64,
then zero-padded to 64 bytes. -/
def blockKey (key : GoString) : GoString :=
  let k := if key.length > 64 then sha256.Sum256 key else key
  k ++ List.replicate (64 - k.length) (0 : Byte)

/-- The HMAC-SHA256 tag: `h := hmac.New(sha256.New, key); h.Write(msg); h.Sum(nil)`. -/
def Sum (key msg : GoString) : GoString :=
  let k := blockKey key
  let ipad := k.map (fun b => b ^^^ (0x36 : Byte))
  let opad := k.map (fun b => b ^^^ (0x5c : Byte))
  sha256.Sum256 (opad ++ sha256.Sum256 (ipad ++ msg))

end hmac

namespace subtle

/-- Go `subtle.ConstantTimeByteEq`: `int((uint32(x^y) - 1) >> 31)`, with the
subtraction wrapping modulo `2^32`. -/
def ConstantTimeByteEq (x y : Byte) : Nat :=
  (((x ^^^ y).val + 4294967296 - 1) % 4294967296) >>> 31

/-- The loop of `subtle.ConstantTimeCompare` over two slices of equal length:
`v |= x[i] ^ y[i]` for every index `i`.  The second component counts the
iterations that were executed. -/
def compareLoop : GoString → GoString → Byte → Nat → Byte × Nat
  | a :: x, b :: y, v, n => compareLoop x y (v ||| (a ^^^ b)) (n + 1)
  | _, _, v, n => (v, n)

/-- Go `subtle.ConstantTimeCompare`, paired with the number of loop iterations it
executed: `0` at once when the lengths differ, otherwise the loop over all
bytes and `ConstantTimeByteEq(v, 0)`. -/
def compareRun (x y : GoString) : Nat × Nat :=
  if x.length ≠ y.length then (0, 0)
  else
    let r := compareLoop x y 0 0
    (ConstantTimeByteEq r.1 0, r.2)

/-- Go `subtle.ConstantTimeCompare`: `1` when the slices are equal, `0` otherwise. -/
def ConstantTimeCompare (x y : GoString) : Nat := (compareRun x y).1

end subtle

namespace hmac

/-- Go `hmac.Equal`: `subtle.ConstantTimeCompare(mac1, mac2) == 1`. -/
def Equal (mac1 mac2 : GoString) : Bool :=
  subtle.ConstantTimeCompare mac1 mac2 == 1

end hmac

/-! ## `verifyRazorpaySignature` -/

/-- The local `computedSignature` of `verifyRazorpaySignature`: the hexadecimal
HMAC-SHA256 tag, under `secret`, of `orderID + "|" + paymentID`. -/
def computedSignature (orderID paymentID secret : GoString) : GoString :=
  hex.EncodeToString (hmac.Sum secret (orderID ++ ascii "|" ++ paymentID))

/-- The function `verifyRazorpaySignature` of `main.go`. -/
def verifyRazorpaySignature (orderID paymentID signature secret : GoString) : Bool :=
  hmac.Equal (computedSignature orderID paymentID secret) signature

/-- Number of loop iterations executed by the comparison inside
`verifyRazorpaySignature`. -/
def verifyComparisonSteps (orderID paymentID signature secret : GoString) : Nat :=
  (subtle.compareRun (computedSignature orderID paymentID secret) signature).2

/-! ## `strings` and `net/url` -/

namespace strings

/-- Go `strings.Cut(s, sep)` for a one-byte separator: the text before the first
`sep`, the text after it, and whether `sep` was found. -/
def Cut (s : GoString) (sep : Byte) : GoString × GoString × Bool :=
  match s with
  | [] => ([], [], false)
  | c :: rest =>
    if c = sep then ([], rest, true)
    else
      let r := Cut rest sep
      (c :: r.1, r.2.1, r.2.2)

/-- Go `strings.Contains(s, sep)` for a one-byte `sep`. -/
def Contains (s : GoString) (sep : Byte) : Bool := s.contains sep

end strings

namespace url

/-- Go `url.ishex`. -/
def ishex (c : Byte) : Bool :=
  (48 ≤ c.val && c.val ≤ 57) || (97 ≤ c.val && c.val ≤ 102) || (65 ≤ c.val && c.val ≤ 70)

/-- Go `url.unhex`. -/
def unhex (c : Byte) : Nat :=
  if 48 ≤ c.val ∧ c.val ≤ 57 then c.val - 48
  else if 97 ≤ c.val ∧ c.val ≤ 102 then c.val - 97 + 10
  else if 65 ≤ c.val ∧ c.val ≤ 70 then c.val - 65 + 10
  else 0

/-- First loop of `url.unescape`: every `%` must be followed by two hexadecimal
digits; otherwise the result is the `EscapeError`, the at most three bytes from
the offending `%` on. -/
def checkEscapes : GoString → Option GoString
  | [] => none
  | c :: rest =>
    if c = 37 then
      match rest with
      | c1 :: c2 :: rest2 =>
        if ishex c1 && ishex c2 then checkEscapes rest2 else some [c, c1, c2]
      | short => some (c :: short)
    else checkEscapes rest

/-- Second loop of `url.unescape` in query-component mode: `%XY` becomes the byte
`unhex(X)<<4 | unhex(Y)`, `+` becomes a space, any other byte is kept. -/
def decodeEscapes : GoString → GoString
  | [] => []
  | c :: rest =>
    if c = 37 then
      match rest with
      | c1 :: c2 :: rest2 => Fin.ofNat ((unhex c1 <<< 4) ||| unhex c2) :: decodeEscapes rest2
      | _ => []
    else if c = 43 then (32 : Byte) :: decodeEscapes rest
    else c :: decodeEscapes rest

/-- Go `url.QueryUnescape`: the decoded text, or the `EscapeError`. -/
def QueryUnescape (s : GoString) : Except GoString GoString :=
  match checkEscapes s with
  | some e => .error e
  | none => .ok (decodeEscapes s)

/-- The errors of `url.ParseQuery`. -/
inductive ParseError where
  | semicolon
  | escape (e : GoString)
  deriving DecidableEq, Repr

/-- Go `url.Values`, a `map[string][]string`: keys with their value slices. -/
abbrev Values := List (GoString × List GoString)

/-- Map index with presence flag, `vs, exists := m[key]`. -/
def Values.lookup : Values → GoString → Option (List GoString)
  | [], _ => none
  | (k, vs) :: rest, key => if k = key then some vs else Values.lookup rest key

/-- The statement `m[key] = append(m[key], value)`. -/
def Values.add : Values → GoString → GoString → Values
  | [], key, value => [(key, [value])]
  | (k, vs) :: rest, key, value =>
    if k = key then (k, vs ++ [value]) :: rest
    else (k, vs) :: Values.add rest key value

/-- The loop `for query != ""` of `url.parseQuery`, run for at most `fuel`
iterations; `err` is the error recorded so far. -/
def parseQueryLoop : Nat → Values → Option ParseError → GoString → Values × Option ParseError
  | 0, m, err, _ => (m, err)
  | fuel + 1, m, err, query =>
    if query = [] then (m, err)
    else
      let c := strings.Cut query 38
      if strings.Contains c.1 59 then parseQueryLoop fuel m (some ParseError.semicolon) c.2.1
      else if c.1 = [] then parseQueryLoop fuel m err c.2.1
      else
        let kv := strings.Cut c.1 61
        match QueryUnescape kv.1 with
        | .error e1 =>
          parseQueryLoop fuel m (if err = none then some (ParseError.escape e1) else err) c.2.1
        | .ok key =>
          match QueryUnescape kv.2.1 with
          | .error e1 =>
            parseQueryLoop fuel m (if err = none then some (ParseError.escape e1) else err) c.2.1
          | .ok value => parseQueryLoop fuel (Values.add m key value) err c.2.1

/-- Go `url.parseQuery(m, query)`, entered with the error `err`: the loop run to its
end.  Every iteration removes at least one byte of the query, so that
`query.length` iterations are enough. -/
def parseQuery (m : Values) (err : Option ParseError) (query : GoString) :
    Values × Option ParseError :=
  parseQueryLoop query.length m err query

/-- Go `url.ParseQuery`: the values parsed and the first error met, if any.  Releases
of `net/url` that also bound the number of parameters report one more kind of
error; the handler treats every error alike. -/
def ParseQuery (query : GoString) : Values × Option ParseError :=
  parseQuery [] none query

end url

/-! ## Values, responses and events -/

/-- The struct `Payment` of `main.go`. -/
structure Payment where
  PaymentID : GoString
  OrderID : GoString
  Signature : GoString
  deriving DecidableEq, Repr

/-- Go values of type `interface{}` that occur in the handlers: order payloads,
decoded JSON and response bodies.  A `float64` is carried as its bit pattern. -/
inductive Any where
  | nil
  | bool (b : Bool)
  | int (n : Int)
  | float64 (bits : Nat)
  | string (s : GoString)
  | slice (xs : List Any)
  | map (kvs : List (GoString × Any))
  | payment (p : Payment)

/-- A `map[string]interface{}` (also `gin.H`). -/
abbrev GoMap := List (GoString × Any)

/-- Map index `m[key]`, which is `nil` for an absent key. -/
def GoMap.index : GoMap → GoString → Any
  | [], _ => Any.nil
  | (k, v) :: rest, key => if k = key then v else GoMap.index rest key

/-- A Go `error`, observed through its method `Error()`. -/
structure GoError where
  Error : GoString
  deriving DecidableEq, Repr

namespace http

/-- The constant `http.StatusOK`. -/
def StatusOK : Nat := 200

/-- The constant `http.StatusBadRequest`. -/
def StatusBadRequest : Nat := 400

/-- The constant `http.StatusInternalServerError`. -/
def StatusInternalServerError : Nat := 500

end http

/-- What a handler did to the request: the one call `c.JSON(code, obj)` it issued, with
the Go value `obj` as it is handed to gin and before it is rendered, or a run-time
panic (index out of range).  The response that gin writes for the call is
`Outcome.response`. -/
inductive Outcome where
  | JSON (code : Nat) (obj : Any)
  | panic

/-- Calls made by a handler, in order. -/
inductive Event where
  | println (args : List GoString)
  | orderCreate (keyID keySecret : GoString) (data : GoMap)
  | verifySignature (orderID paymentID signature secret : GoString)

/-- The gateway call `razorpay.NewClient(keyID, keySecret).Order.Create(data, nil)`. -/
abbrev Gateway := GoString → GoString → GoMap → Except GoError GoMap

/-! ## The handlers of `main.go` -/

/-- The map literal `data` of `createRazorpayOrder`. -/
def orderData : GoMap :=
  [(ascii "amount", Any.int 5000),
   (ascii "currency", Any.string (ascii "INR")),
   (ascii "receipt", Any.string (ascii "receipt#1")),
   (ascii "payment_capture", Any.int 1)]

/-- The handler `createRazorpayOrder`; `Getenv` is `os.Getenv` and `create` the
gateway. -/
def createRazorpayOrder (Getenv : GoString → GoString) (create : Gateway) :
    List Event × Outcome :=
  let keyID := Getenv (ascii "RAZORPAY_KEY_ID")
  let keySecret := Getenv (ascii "RAZORPAY_KEY_SECRET")
  let trace := [Event.orderCreate keyID keySecret orderData]
  match create keyID keySecret orderData with
  | .error err =>
    (trace, Outcome.JSON http.StatusInternalServerError
      (Any.map [(ascii "error", Any.string err.Error)]))
  | .ok order =>
    let responseData : GoMap :=
      [(ascii "id", GoMap.index order (ascii "id")),
       (ascii "amount", GoMap.index order (ascii "amount")),
       (ascii "key", Any.string (Getenv (ascii "RAZORPAY_KEY_ID")))]
    (trace, Outcome.JSON http.StatusOK (Any.map responseData))

/-- The response `c.JSON(http.StatusBadRequest, gin.H{"error": "Missing <name> parameter"})`. -/
def missingParameter (name : String) : Outcome :=
  Outcome.JSON http.StatusBadRequest
    (Any.map [(ascii "error", Any.string (ascii ("Missing " ++ name ++ " parameter")))])

/-- The handler `PaymentGatewayCallback`; `Getenv` is `os.Getenv` and `readAll` the
result of `io.ReadAll(c.Request.Body)`. -/
def PaymentGatewayCallback (Getenv : GoString → GoString) (readAll : Except GoError GoString) :
    List Event × Outcome :=
  match readAll with
  | .error _ =>
    ([], Outcome.JSON http.StatusInternalServerError
      (Any.map [(ascii "error", Any.string (ascii "Unable to read request body"))]))
  | .ok body =>
    let trace := [Event.println [ascii "Received request body:", body]]
    match url.ParseQuery body with
    | (_, some _) =>
      (trace, Outcome.JSON http.StatusInternalServerError
        (Any.map [(ascii "error", Any.string (ascii "Failed to parse query parameters"))]))
    | (parsedQuery, none) =>
      match url.Values.lookup parsedQuery (ascii "razorpay_payment_id") with
      | none => (trace, missingParameter "payment_id")
      | some [] => (trace, Outcome.panic)
      | some (paymentID0 :: _) =>
        if paymentID0.length = 0 then (trace, missingParameter "payment_id")
        else
          match url.Values.lookup parsedQuery (ascii "razorpay_order_id") with
          | none => (trace, missingParameter "order_id")
          | some [] => (trace, Outcome.panic)
          | some (orderID0 :: _) =>
            if orderID0.length = 0 then (trace, missingParameter "order_id")
            else
              match url.Values.lookup parsedQuery (ascii "razorpay_signature") with
              | none => (trace, missingParameter "signature")
              | some [] => (trace, Outcome.panic)
              | some (signature0 :: _) =>
                if signature0.length = 0 then (trace, missingParameter "signature")
                else
                  let p : Payment :=
                    { PaymentID := paymentID0, OrderID := orderID0, Signature := signature0 }
                  let secret := Getenv (ascii "RAZORPAY_KEY_SECRET")
                  let trace2 := trace ++
                    [Event.verifySignature p.OrderID p.PaymentID p.Signature secret]
                  if !verifyRazorpaySignature p.OrderID p.PaymentID p.Signature secret then
                    (trace2, Outcome.JSON http.StatusBadRequest
                      (Any.map [(ascii "error", Any.string (ascii "failed to verify"))]))
                  else
                    (trace2, Outcome.JSON http.StatusOK
                      (Any.map [(ascii "paymentData", Any.payment p)]))

/-! ## The response: `unicode/utf8`, `encoding/json` and `c.JSON` -/

namespace utf8

/-- The constant `utf8.RuneError`, U+FFFD. -/
def RuneError : Nat := 0xFFFD

/-- The table `first` of `unicode/utf8`: `as = 0xF0` for ASCII, `xx = 0xF1` for a byte
that starts no encoding, otherwise the index of the accept range in the high
four bits and the size of the encoding in the low three. -/
def first (b : Byte) : Nat :=
  if b.val < 0x80 then 0xF0
  else if b.val < 0xC2 then 0xF1
  else if b.val < 0xE0 then 0x02
  else if b.val = 0xE0 then 0x13
  else if b.val < 0xED then 0x03
  else if b.val = 0xED then 0x23
  else if b.val < 0xF0 then 0x03
  else if b.val = 0xF0 then 0x34
  else if b.val < 0xF4 then 0x04
  else if b.val = 0xF4 then 0x44
  else 0xF1

/-- The table `acceptRanges` of `unicode/utf8`: lowest and highest second byte. -/
def acceptRanges (i : Nat) : Nat × Nat :=
  if i = 0 then (0x80, 0xBF)
  else if i = 1 then (0xA0, 0xBF)
  else if i = 2 then (0x80, 0x9F)
  else if i = 3 then (0x90, 0xBF)
  else if i = 4 then (0x80, 0x8F)
  else (0, 0)

/-- Go `utf8.DecodeRuneInString`: the first rune of `s` and the number of bytes of its
encoding; `(RuneError, 1)` when `s` does not start with a valid encoding and
`(RuneError, 0)` when `s` is empty. -/
def DecodeRuneInString (s : GoString) : Nat × Nat :=
  match s with
  | [] => (RuneError, 0)
  | s0 :: t =>
    let x := first s0
    if x ≥ 0xF0 then (if x &&& 1 = 1 then RuneError else s0.val, 1)
    else
      let sz := x &&& 7
      let accept := acceptRanges (x >>> 4)
      if s.length < sz then (RuneError, 1)
      else
        match t with
        | [] => (RuneError, 1)
        | s1 :: t1 =>
          if s1.val < accept.1 ∨ accept.2 < s1.val then (RuneError, 1)
          else if sz ≤ 2 then (((s0.val &&& 0x1F) <<< 6) ||| (s1.val &&& 0x3F), 2)
          else
            match t1 with
            | [] => (RuneError, 1)
            | s2 :: t2 =>
              if s2.val < 0x80 ∨ 0xBF < s2.val then (RuneError, 1)
              else if sz ≤ 3 then
                (((s0.val &&& 0x0F) <<< 12) ||| ((s1.val &&& 0x3F) <<< 6) ||| (s2.val &&& 0x3F), 3)
              else
                match t2 with
                | [] => (RuneError, 1)
                | s3 :: _ =>
                  if s3.val < 0x80 ∨ 0xBF < s3.val then (RuneError, 1)
                  else
                    (((s0.val &&& 0x07) <<< 18) ||| ((s1.val &&& 0x3F) <<< 12) |||
                      ((s2.val &&& 0x3F) <<< 6) ||| (s3.val &&& 0x3F), 4)

/-- The loop of `utf8.ValidString`, entered with `skip` bytes left of an encoding that
was found valid: no position of `s` decodes to `(RuneError, 1)`. -/
def validFrom : Nat → GoString → Bool
  | _, [] => true
  | skip + 1, _ :: rest => validFrom skip rest
  | 0, b :: rest =>
    if b.val < 0x80 then validFrom 0 rest
    else
      let r := DecodeRuneInString (b :: rest)
      if r.1 = RuneError ∧ r.2 = 1 then false
      else validFrom (r.2 - 1) rest

/-- Go `utf8.ValidString`: `s` consists entirely of valid UTF-8 encoded runes. -/
def ValidString (s : GoString) : Bool := validFrom 0 s

end utf8

namespace json

/-- The loop of `appendString` of `encoding/json`, read as the text of the JSON string
it writes; `skip` bytes are left of a rune that was decoded.  An ASCII byte stands
for itself (written as it is or as an escape sequence), and so does a valid rune;
a byte at which `utf8.DecodeRuneInString` gives `(RuneError, 1)` is written as
U+FFFD, the bytes `EF BF BD`, and the loop goes on with the next byte. -/
def stringFrom : Nat → GoString → GoString
  | _, [] => []
  | skip + 1, b :: rest => b :: stringFrom skip rest
  | 0, b :: rest =>
    if b.val < 0x80 then b :: stringFrom 0 rest
    else
      let r := utf8.DecodeRuneInString (b :: rest)
      if r.1 = utf8.RuneError ∧ r.2 = 1 then
        (0xEF : Byte) :: (0xBF : Byte) :: (0xBD : Byte) :: stringFrom 0 rest
      else b :: stringFrom (r.2 - 1) rest

/-- The text of the JSON string that `encoding/json` writes for the Go string `s`, as a
reader of the JSON document decodes it: `s` coerced to valid UTF-8, every invalid
byte replaced by U+FFFD. -/
def stringValue (s : GoString) : GoString := stringFrom 0 s

end json

/-- A JSON document as its reader decodes it.  Strings and objects are all that the
responses of `PaymentGatewayCallback` are made of. -/
inductive JSONValue where
  | string (s : GoString)
  | object (members : List (GoString × JSONValue))

/-- The rendering of a `Payment` by `encoding/json`: an object with the three members
named by the `json` tags of the struct, in the order of the fields. -/
def Payment.document (p : Payment) : JSONValue :=
  JSONValue.object
    [(ascii "razorpay_payment_id", JSONValue.string (json.stringValue p.PaymentID)),
     (ascii "razorpay_order_id", JSONValue.string (json.stringValue p.OrderID)),
     (ascii "razorpay_signature", JSONValue.string (json.stringValue p.Signature))]

/-- The document `json.Marshal(obj)` for the values that `PaymentGatewayCallback` hands
to `c.JSON`: a string, a `Payment`, or a `gin.H` with one key bound to one of
these.  The rendering of other values (numbers, slices, larger maps) is not part
of this development: `none`. -/
def json.document : Any → Option JSONValue
  | Any.string s => some (JSONValue.string (json.stringValue s))
  | Any.payment p => some p.document
  | Any.map [(k, Any.string s)] =>
    some (JSONValue.object [(json.stringValue k, JSONValue.string (json.stringValue s))])
  | Any.map [(k, Any.payment p)] =>
    some (JSONValue.object [(json.stringValue k, p.document)])
  | _ => none

/-- An HTTP response with a JSON body: the status code and the document. -/
structure Response where
  Status : Nat
  Body : JSONValue

/-- The response gin writes for `c.JSON(code, obj)`: the status `code` and the body
`json.Marshal(obj)`.  A panic writes no JSON response. -/
def Outcome.response : Outcome → Option Response
  | Outcome.JSON code obj => (json.document obj).map (fun d => Response.mk code d)
  | Outcome.panic => none

/-! ## Definitions used to state the properties -/

/-- The string `s` with bit `k` of its byte at index `i` flipped. -/
def flipBit : GoString → Nat → Nat → GoString
  | [], _, _ => []
  | b :: rest, 0, k => (b ^^^ Fin.ofNat (2 ^ k)) :: rest
  | b :: rest, i + 1, k => b :: flipBit rest i k

/-- The three required form fields in the order `payment_id`, `order_id`,
`signature`: the key in the form body and the name used in the error message. -/
def requiredFields : List (String × String) :=
  [("razorpay_payment_id", "payment_id"),
   ("razorpay_order_id", "order_id"),
   ("razorpay_signature", "signature")]

/-- A field is absent or empty in the parsed body: the key is not in the map, or
its first value is the empty string. -/
def absentOrEmpty (m : url.Values) (key : GoString) : Bool :=
  match url.Values.lookup m key with
  | none => true
  | some vs => vs.head? == some []

/-- The event is the call of `verifyRazorpaySignature`. -/
def Event.isVerify : Event → Bool
  | Event.verifySignature _ _ _ _ => true
  | _ => false

/-- Every key of the map is bound to a slice with at least one value. -/
def url.Values.nonEmpty (m : url.Values) : Prop :=
  ∀ kv ∈ m, kv.2 ≠ []

/-- The trace of a callback that ends at one of the field checks. -/
def fieldCheckTrace (body : GoString) : List Event :=
  [Event.println [ascii "Received request body:", body]]

/-- The environment of the examples: the key id `rzp_test_key` and the secret `s3cr3t`. -/
def exampleEnv (name : GoString) : GoString :=
  if name = ascii "RAZORPAY_KEY_ID" then ascii "rzp_test_key"
  else if name = ascii "RAZORPAY_KEY_SECRET" then ascii "s3cr3t"
  else []

/-- The callback body of the example of the specification, with the valid signature. -/
def exampleBody : GoString :=
  ascii "razorpay_payment_id=pay_xyz&razorpay_order_id=order_abc&razorpay_signature=ee21698235c31aef5bb049b86d1c00014db7de75dbe78cb4ed9ffa8e90855655"

/-- The callback body of the example with the last hexadecimal digit of the signature
changed. -/
def tamperedBody : GoString :=
  ascii "razorpay_payment_id=pay_xyz&razorpay_order_id=order_abc&razorpay_signature=ee21698235c31aef5bb049b86d1c00014db7de75dbe78cb4ed9ffa8e90855654"

/-- A correctly signed callback body whose payment id is the single byte `0xFF`, which
is not valid UTF-8. -/
def invalidUTF8Body : GoString :=
  ascii "razorpay_payment_id=%ff&razorpay_order_id=order_abc&razorpay_signature=b3de513b33068acca961f443c1bfede6c57e1becfc564283a538c0bc6a8132b6"

/-! ## Bytes -/

theorem Nat.lor_eq_zero_iff_both (a b : Nat) : a ||| b = 0 ↔ a = 0 ∧ b = 0 := by
  constructor
  · intro h
    have key : ∀ i, a.testBit i = false ∧ b.testBit i = false := by
      intro i
      have := congrArg (fun n => Nat.testBit n i) h
      simpa [Nat.testBit_or] using this
    exact ⟨Nat.zero_of_testBit_eq_false fun i => (key i).1,
      Nat.zero_of_testBit_eq_false fun i => (key i).2⟩
  · rintro ⟨rfl, rfl⟩
    rfl

theorem Byte.xor_eq_zero_iff (a b : Byte) : a ^^^ b = 0 ↔ a = b := by
  rw [Fin.ext_iff, Fin.ext_iff]
  show (a.val ^^^ b.val) % 256 = 0 ↔ a.val = b.val
  have h : a.val ^^^ b.val < 256 := Nat.xor_lt_two_pow (n := 8) a.isLt b.isLt
  rw [Nat.mod_eq_of_lt h]
  exact Nat.xor_eq_zero

theorem Byte.or_eq_zero_iff (a b : Byte) : a ||| b = 0 ↔ a = 0 ∧ b = 0 := by
  rw [Fin.ext_iff, Fin.ext_iff, Fin.ext_iff]
  show (a.val ||| b.val) % 256 = 0 ↔ a.val = 0 ∧ b.val = 0
  have h : a.val ||| b.val < 256 := Nat.or_lt_two_pow (n := 8) a.isLt b.isLt
  rw [Nat.mod_eq_of_lt h]
  exact Nat.lor_eq_zero_iff_both _ _

/-! ## `crypto/subtle` and `crypto/hmac`: the comparison -/

theorem subtle.ConstantTimeByteEq_zero (v : Byte) :
    subtle.ConstantTimeByteEq v 0 = 1 ↔ v = 0 := by
  revert v; decide

/-- The loop ends with `v = 0` exactly when it started with `v = 0` and the slices agree. -/
theorem subtle.compareLoop_fst (x y : GoString) (v : Byte) (n : Nat)
    (hlen : x.length = y.length) :
    (subtle.compareLoop x y v n).1 = 0 ↔ v = 0 ∧ x = y := by
  induction x generalizing y v n with
  | nil =>
    cases y with
    | nil => simp [subtle.compareLoop]
    | cons b y => simp at hlen
  | cons a x ih =>
    cases y with
    | nil => simp at hlen
    | cons b y =>
      have hl : x.length = y.length := by simpa using hlen
      rw [subtle.compareLoop, ih y _ _ hl, Byte.or_eq_zero_iff, Byte.xor_eq_zero_iff]
      constructor
      · rintro ⟨⟨hv, hab⟩, hxy⟩
        exact ⟨hv, by rw [hab, hxy]⟩
      · rintro ⟨hv, hxy⟩
        injection hxy with h1 h2
        exact ⟨⟨hv, h1⟩, h2⟩

/-- The loop runs once for every index, whatever the bytes are. -/
theorem subtle.compareLoop_snd (x y : GoString) (v : Byte) (n : Nat)
    (hlen : x.length = y.length) :
    (subtle.compareLoop x y v n).2 = n + x.length := by
  induction x generalizing y v n with
  | nil =>
    cases y with
    | nil => simp [subtle.compareLoop]
    | cons b y => simp at hlen
  | cons a x ih =>
    cases y with
    | nil => simp at hlen
    | cons b y =>
      have hl : x.length = y.length := by simpa using hlen
      rw [subtle.compareLoop, ih y _ _ hl]
      simp only [List.length_cons]
      omega

theorem subtle.ConstantTimeCompare_eq_one (x y : GoString) :
    subtle.ConstantTimeCompare x y = 1 ↔ x = y := by
  unfold subtle.ConstantTimeCompare subtle.compareRun
  by_cases hlen : x.length = y.length
  · simp only [hlen, ne_eq, not_true_eq_false, if_false]
    rw [subtle.ConstantTimeByteEq_zero, subtle.compareLoop_fst x y 0 0 hlen]
    simp
  · simp only [ne_eq, hlen, not_false_eq_true, if_true]
    constructor
    · intro h; exact absurd h (by decide)
    · intro h; exact absurd (congrArg List.length h) hlen

theorem subtle.compareRun_steps (x y : GoString) :
    (subtle.compareRun x y).2 = if x.length = y.length then x.length else 0 := by
  unfold subtle.compareRun
  by_cases hlen : x.length = y.length
  · simp only [hlen, ne_eq, not_true_eq_false, if_false, if_true]
    rw [subtle.compareLoop_snd x y 0 0 hlen, hlen]
    simp
  · simp [hlen]

theorem hmac.Equal_iff (mac1 mac2 : GoString) : hmac.Equal mac1 mac2 = true ↔ mac1 = mac2 := by
  unfold hmac.Equal
  rw [beq_iff_eq, subtle.ConstantTimeCompare_eq_one]

/-! ## `encoding/hex` and `crypto/sha256`: lengths -/

theorem hex.length_EncodeToString (s : GoString) :
    (hex.EncodeToString s).length = 2 * s.length := by
  induction s with
  | nil => rfl
  | cons v rest ih =>
    simp only [hex.EncodeToString, hex.encodeByte, List.length_append, List.length_cons,
      List.length_nil, ih]
    omega

theorem sha256.length_Sum256 (data : GoString) : (sha256.Sum256 data).length = 32 := by
  simp [sha256.Sum256, sha256.putUint32]

theorem hmac.length_Sum (key msg : GoString) : (hmac.Sum key msg).length = 32 := by
  unfold hmac.Sum
  exact sha256.length_Sum256 _

theorem length_computedSignature (orderID paymentID secret : GoString) :
    (computedSignature orderID paymentID secret).length = 64 := by
  unfold computedSignature
  rw [hex.length_EncodeToString, hmac.length_Sum]

/-! ## `verifyRazorpaySignature` -/

theorem verifyRazorpaySignature_iff (orderID paymentID signature secret : GoString) :
    verifyRazorpaySignature orderID paymentID signature secret = true ↔
      signature = computedSignature orderID paymentID secret := by
  unfold verifyRazorpaySignature
  rw [hmac.Equal_iff]
  exact eq_comm

theorem verifyRazorpaySignature_eq_false_iff (orderID paymentID signature secret : GoString) :
    verifyRazorpaySignature orderID paymentID signature secret = false ↔
      signature ≠ computedSignature orderID paymentID secret := by
  rw [← Bool.not_eq_true, verifyRazorpaySignature_iff]

theorem verifyComparisonSteps_eq (orderID paymentID signature secret : GoString) :
    verifyComparisonSteps orderID paymentID signature secret =
      if signature.length = 64 then 64 else 0 := by
  unfold verifyComparisonSteps
  rw [subtle.compareRun_steps, length_computedSignature]
  by_cases h : signature.length = 64
  · simp [h]
  · have h2 : ¬ 64 = signature.length := fun e => h e.symm
    simp [h, h2]

/-! ## `net/url`: the loop of `ParseQuery` -/

theorem strings.Cut_rest_length (s : GoString) (sep : Byte) (hs : s ≠ []) :
    (strings.Cut s sep).2.1.length < s.length := by
  induction s with
  | nil => exact absurd rfl hs
  | cons c rest ih =>
    unfold strings.Cut
    by_cases hc : c = sep
    · simp [hc]
    · simp only [hc, if_false, List.length_cons]
      by_cases hr : rest = []
      · subst hr
        simp [strings.Cut]
      · have := ih hr
        omega

/-- Fuel beyond the length of the query does not change the result of the loop: the
loop has ended by then. -/
theorem url.parseQueryLoop_fuel (fuel1 fuel2 : Nat) (m : url.Values)
    (err : Option url.ParseError) (query : GoString)
    (h1 : query.length ≤ fuel1) (h2 : query.length ≤ fuel2) :
    url.parseQueryLoop fuel1 m err query = url.parseQueryLoop fuel2 m err query := by
  induction fuel1 generalizing fuel2 m err query with
  | zero =>
    have hq : query = [] := List.length_eq_zero.mp (Nat.le_zero.mp h1)
    subst hq
    cases fuel2 <;> simp [url.parseQueryLoop]
  | succ n ih =>
    cases fuel2 with
    | zero =>
      have hq : query = [] := List.length_eq_zero.mp (Nat.le_zero.mp h2)
      subst hq
      simp [url.parseQueryLoop]
    | succ k =>
      unfold url.parseQueryLoop
      by_cases hq : query = []
      · simp [hq]
      · have hlt := strings.Cut_rest_length query 38 hq
        have hn : (strings.Cut query 38).2.1.length ≤ n := by omega
        have hk : (strings.Cut query 38).2.1.length ≤ k := by omega
        simp only [hq, if_false]
        split
        · exact ih k _ _ _ hn hk
        · split
          · exact ih k _ _ _ hn hk
          · split
            · exact ih k _ _ _ hn hk
            · split
              · exact ih k _ _ _ hn hk
              · exact ih k _ _ _ hn hk

/-- The loop of `url.parseQuery` as the source writes it, without a bound on the
iterations: an empty query ends it; otherwise the text up to the first `&` is
handled and the loop goes on with the text after it. -/
theorem url.parseQuery_unfold (m : url.Values) (err : Option url.ParseError)
    (query : GoString) :
    url.parseQuery m err query =
      if query = [] then (m, err)
      else
        let c := strings.Cut query 38
        if strings.Contains c.1 59 then url.parseQuery m (some url.ParseError.semicolon) c.2.1
        else if c.1 = [] then url.parseQuery m err c.2.1
        else
          let kv := strings.Cut c.1 61
          match url.QueryUnescape kv.1 with
          | .error e1 =>
            url.parseQuery m (if err = none then some (url.ParseError.escape e1) else err) c.2.1
          | .ok key =>
            match url.QueryUnescape kv.2.1 with
            | .error e1 =>
              url.parseQuery m (if err = none then some (url.ParseError.escape e1) else err)
                c.2.1
            | .ok value => url.parseQuery (url.Values.add m key value) err c.2.1 := by
  cases query with
  | nil => simp [url.parseQuery, url.parseQueryLoop]
  | cons b rest =>
    have hlt := strings.Cut_rest_length (b :: rest) 38 (List.cons_ne_nil _ _)
    have hle : (strings.Cut (b :: rest) 38).2.1.length ≤ rest.length := by
      simp only [List.length_cons] at hlt
      omega
    have key : ∀ m2 err2, url.parseQueryLoop rest.length m2 err2 (strings.Cut (b :: rest) 38).2.1 =
        url.parseQuery m2 err2 (strings.Cut (b :: rest) 38).2.1 := fun m2 err2 =>
      url.parseQueryLoop_fuel _ _ m2 err2 _ hle (Nat.le_refl _)
    simp only [url.parseQuery, List.length_cons, url.parseQueryLoop, List.cons_ne_nil, if_false]
    simp only [url.parseQuery] at key
    simp only [key]

theorem url.Values.nonEmpty_add (m : url.Values) (key value : GoString)
    (hm : url.Values.nonEmpty m) : url.Values.nonEmpty (url.Values.add m key value) := by
  induction m with
  | nil =>
    intro kv hkv
    simp only [url.Values.add, List.mem_singleton] at hkv
    subst hkv
    simp
  | cons kv0 rest ih =>
    obtain ⟨k0, vs0⟩ := kv0
    have hrest : url.Values.nonEmpty rest := fun kv hkv => hm kv (List.mem_cons_of_mem _ hkv)
    intro kv hkv
    unfold url.Values.add at hkv
    by_cases h0 : k0 = key
    · simp only [h0, if_true, List.mem_cons] at hkv
      rcases hkv with rfl | hkv
      · simp
      · exact hrest kv hkv
    · simp only [h0, if_false, List.mem_cons] at hkv
      rcases hkv with rfl | hkv
      · exact hm _ (List.mem_cons_self _ _)
      · exact ih hrest kv hkv

theorem url.Values.lookup_mem (m : url.Values) (key : GoString) (vs : List GoString)
    (h : url.Values.lookup m key = some vs) : ∃ k, (k, vs) ∈ m := by
  induction m with
  | nil => simp [url.Values.lookup] at h
  | cons kv0 rest ih =>
    obtain ⟨k0, vs0⟩ := kv0
    unfold url.Values.lookup at h
    by_cases h0 : k0 = key
    · simp only [h0, if_true, Option.some.injEq] at h
      exact ⟨k0, by rw [h]; exact List.mem_cons_self _ _⟩
    · simp only [h0, if_false] at h
      obtain ⟨k, hk⟩ := ih h
      exact ⟨k, List.mem_cons_of_mem _ hk⟩

theorem url.parseQueryLoop_nonEmpty (fuel : Nat) (m : url.Values)
    (err : Option url.ParseError) (query : GoString) (hm : url.Values.nonEmpty m) :
    url.Values.nonEmpty (url.parseQueryLoop fuel m err query).1 := by
  induction fuel generalizing m err query with
  | zero => simpa [url.parseQueryLoop] using hm
  | succ n ih =>
    unfold url.parseQueryLoop
    by_cases hq : query = []
    · simpa [hq] using hm
    · simp only [hq, if_false]
      split
      · exact ih _ _ _ hm
      · split
        · exact ih _ _ _ hm
        · split
          · exact ih _ _ _ hm
          · split
            · exact ih _ _ _ hm
            · exact ih _ _ _ (url.Values.nonEmpty_add _ _ _ hm)

/-- In the map that `ParseQuery` returns, a key that is present has a first value. -/
theorem url.ParseQuery_lookup_ne_nil (body : GoString) (m : url.Values)
    (err : Option url.ParseError) (h : url.ParseQuery body = (m, err)) (key : GoString) :
    url.Values.lookup m key ≠ some [] := by
  intro hk
  have hne : url.Values.nonEmpty (url.ParseQuery body).1 :=
    url.parseQueryLoop_nonEmpty _ _ _ _ (fun kv hkv => by simp at hkv)
  rw [h] at hne
  obtain ⟨k, hmem⟩ := url.Values.lookup_mem m key [] hk
  exact hne (k, []) hmem rfl

/-! ## `PaymentGatewayCallback`: the field checks -/

theorem absentOrEmpty_eq_true (m : url.Values) (key : GoString)
    (h : absentOrEmpty m key = true) :
    url.Values.lookup m key = none ∨ ∃ vs, url.Values.lookup m key = some ([] :: vs) := by
  unfold absentOrEmpty at h
  cases hl : url.Values.lookup m key with
  | none => exact Or.inl rfl
  | some vs =>
    rw [hl] at h
    cases vs with
    | nil => simp at h
    | cons v vs =>
      have hv : v = [] := by simpa using h
      exact Or.inr ⟨vs, by rw [hv]⟩

theorem absentOrEmpty_eq_false (m : url.Values) (key : GoString)
    (hne : url.Values.lookup m key ≠ some []) (h : absentOrEmpty m key = false) :
    ∃ v vs, url.Values.lookup m key = some (v :: vs) ∧ v ≠ [] := by
  unfold absentOrEmpty at h
  cases hl : url.Values.lookup m key with
  | none => rw [hl] at h; simp at h
  | some vs =>
    rw [hl] at h
    cases vs with
    | nil => exact absurd hl hne
    | cons v vs =>
      have hv : v ≠ [] := by simpa using h
      exact ⟨v, vs, rfl, hv⟩

theorem callback_missing_payment_id (Getenv : GoString → GoString) (body : GoString)
    (m : url.Values) (hparse : url.ParseQuery body = (m, none))
    (hp : absentOrEmpty m (ascii "razorpay_payment_id") = true) :
    PaymentGatewayCallback Getenv (.ok body) =
      (fieldCheckTrace body, missingParameter "payment_id") := by
  unfold PaymentGatewayCallback fieldCheckTrace
  simp only [hparse]
  rcases absentOrEmpty_eq_true m _ hp with h | ⟨vs, h⟩
  · simp only [h]
  · simp only [h, List.length_nil, if_true]

theorem callback_missing_order_id (Getenv : GoString → GoString) (body : GoString)
    (m : url.Values) (hparse : url.ParseQuery body = (m, none))
    (hp : absentOrEmpty m (ascii "razorpay_payment_id") = false)
    (ho : absentOrEmpty m (ascii "razorpay_order_id") = true) :
    PaymentGatewayCallback Getenv (.ok body) =
      (fieldCheckTrace body, missingParameter "order_id") := by
  obtain ⟨p0, ps, hp1, hp2⟩ :=
    absentOrEmpty_eq_false m _ (url.ParseQuery_lookup_ne_nil body m none hparse _) hp
  have hp3 : ¬ p0.length = 0 := fun e => hp2 (List.length_eq_zero.mp e)
  unfold PaymentGatewayCallback fieldCheckTrace
  simp only [hparse, hp1, hp3, if_false]
  rcases absentOrEmpty_eq_true m _ ho with h | ⟨vs, h⟩
  · simp only [h]
  · simp only [h, List.length_nil, if_true]

theorem callback_missing_signature (Getenv : GoString → GoString) (body : GoString)
    (m : url.Values) (hparse : url.ParseQuery body = (m, none))
    (hp : absentOrEmpty m (ascii "razorpay_payment_id") = false)
    (ho : absentOrEmpty m (ascii "razorpay_order_id") = false)
    (hs : absentOrEmpty m (ascii "razorpay_signature") = true) :
    PaymentGatewayCallback Getenv (.ok body) =
      (fieldCheckTrace body, missingParameter "signature") := by
  obtain ⟨p0, ps, hp1, hp2⟩ :=
    absentOrEmpty_eq_false m _ (url.ParseQuery_lookup_ne_nil body m none hparse _) hp
  obtain ⟨o0, os, ho1, ho2⟩ :=
    absentOrEmpty_eq_false m _ (url.ParseQuery_lookup_ne_nil body m none hparse _) ho
  have hp3 : ¬ p0.length = 0 := fun e => hp2 (List.length_eq_zero.mp e)
  have ho3 : ¬ o0.length = 0 := fun e => ho2 (List.length_eq_zero.mp e)
  unfold PaymentGatewayCallback fieldCheckTrace
  simp only [hparse, hp1, hp3, ho1, ho3, if_false]
  rcases absentOrEmpty_eq_true m _ hs with h | ⟨vs, h⟩
  · simp only [h]
  · simp only [h, List.length_nil, if_true]

/-- With all three fields present and non-empty the handler reaches the signature
check, and its outcome is decided by `verifyRazorpaySignature`. -/
theorem callback_all_present (Getenv : GoString → GoString) (body : GoString)
    (m : url.Values) (paymentID orderID signature : GoString) (ps os ss : List GoString)
    (hparse : url.ParseQuery body = (m, none))
    (hp : url.Values.lookup m (ascii "razorpay_payment_id") = some (paymentID :: ps))
    (hp0 : paymentID ≠ [])
    (ho : url.Values.lookup m (ascii "razorpay_order_id") = some (orderID :: os))
    (ho0 : orderID ≠ [])
    (hs : url.Values.lookup m (ascii "razorpay_signature") = some (signature :: ss))
    (hs0 : signature ≠ []) :
    PaymentGatewayCallback Getenv (.ok body) =
      (fieldCheckTrace body ++ [Event.verifySignature orderID paymentID signature
          (Getenv (ascii "RAZORPAY_KEY_SECRET"))],
        if verifyRazorpaySignature orderID paymentID signature
            (Getenv (ascii "RAZORPAY_KEY_SECRET")) = true then
          Outcome.JSON 200 (Any.map [(ascii "paymentData",
            Any.payment { PaymentID := paymentID, OrderID := orderID, Signature := signature })])
        else
          Outcome.JSON 400 (Any.map [(ascii "error", Any.string (ascii "failed to verify"))])) := by
  have hp3 : ¬ paymentID.length = 0 := fun e => hp0 (List.length_eq_zero.mp e)
  have ho3 : ¬ orderID.length = 0 := fun e => ho0 (List.length_eq_zero.mp e)
  have hs3 : ¬ signature.length = 0 := fun e => hs0 (List.length_eq_zero.mp e)
  unfold PaymentGatewayCallback fieldCheckTrace
  simp only [hparse, hp, hp3, ho, ho3, hs, hs3, if_false]
  cases hv : verifyRazorpaySignature orderID paymentID signature
      (Getenv (ascii "RAZORPAY_KEY_SECRET")) <;>
    simp [http.StatusBadRequest, http.StatusOK]

/-- The handler always answers: the index expressions `paymentID[0]`, `orderID[0]` and
`signature[0]` never panic, because `ParseQuery` binds no key to an empty slice. -/
theorem callback_responds (Getenv : GoString → GoString) (readAll : Except GoError GoString) :
    ∃ code obj, (PaymentGatewayCallback Getenv readAll).2 = Outcome.JSON code obj := by
  cases readAll with
  | error e => exact ⟨_, _, rfl⟩
  | ok body =>
    obtain ⟨m, err, hq⟩ : ∃ m err, url.ParseQuery body = (m, err) := ⟨_, _, rfl⟩
    cases err with
    | some e =>
      refine ⟨500, Any.map [(ascii "error",
        Any.string (ascii "Failed to parse query parameters"))], ?_⟩
      unfold PaymentGatewayCallback
      simp only [hq]
      rfl
    | none =>
      have hne := url.ParseQuery_lookup_ne_nil body m none hq
      cases hp : absentOrEmpty m (ascii "razorpay_payment_id") with
      | true => exact ⟨_, _, by rw [callback_missing_payment_id Getenv body m hq hp]; rfl⟩
      | false =>
        cases ho : absentOrEmpty m (ascii "razorpay_order_id") with
        | true => exact ⟨_, _, by rw [callback_missing_order_id Getenv body m hq hp ho]; rfl⟩
        | false =>
          cases hs : absentOrEmpty m (ascii "razorpay_signature") with
          | true =>
            exact ⟨_, _, by rw [callback_missing_signature Getenv body m hq hp ho hs]; rfl⟩
          | false =>
            obtain ⟨p0, ps, hp1, hp2⟩ := absentOrEmpty_eq_false m _ (hne _) hp
            obtain ⟨o0, os, ho1, ho2⟩ := absentOrEmpty_eq_false m _ (hne _) ho
            obtain ⟨s0, ss, hs1, hs2⟩ := absentOrEmpty_eq_false m _ (hne _) hs
            rw [callback_all_present Getenv body m p0 o0 s0 ps os ss hq hp1 hp2 ho1 ho2 hs1 hs2]
            by_cases hv : verifyRazorpaySignature o0 p0 s0
                (Getenv (ascii "RAZORPAY_KEY_SECRET")) = true
            · rw [if_pos hv]; exact ⟨_, _, rfl⟩
            · rw [if_neg hv]; exact ⟨_, _, rfl⟩

/-! ## `encoding/json`: the text of a rendered string -/

theorem json.stringFrom_of_valid (skip : Nat) (s : GoString)
    (h : utf8.validFrom skip s = true) : json.stringFrom skip s = s := by
  induction s generalizing skip with
  | nil => cases skip <;> rfl
  | cons b rest ih =>
    cases skip with
    | succ k =>
      simp only [utf8.validFrom] at h
      simp only [json.stringFrom, ih k h]
    | zero =>
      simp only [utf8.validFrom] at h
      simp only [json.stringFrom]
      by_cases hb : b.val < 0x80
      · simp only [hb, if_true] at h ⊢
        rw [ih 0 h]
      · simp only [hb, if_false] at h ⊢
        by_cases hr : (utf8.DecodeRuneInString (b :: rest)).1 = utf8.RuneError ∧
            (utf8.DecodeRuneInString (b :: rest)).2 = 1
        · simp [hr] at h
        · simp only [hr, if_false] at h ⊢
          rw [ih _ h]

/-- A string that is valid UTF-8 is rendered as itself. -/
theorem json.stringValue_of_valid (s : GoString) (h : utf8.ValidString s = true) :
    json.stringValue s = s :=
  json.stringFrom_of_valid 0 s h

/-- A string of ASCII bytes is valid UTF-8. -/
theorem utf8.ValidString_of_ascii (s : GoString) (h : ∀ b ∈ s, b.val < 0x80) :
    utf8.ValidString s = true := by
  unfold utf8.ValidString
  induction s with
  | nil => rfl
  | cons b rest ih =>
    have hb : b.val < 0x80 := h b (List.mem_cons_self _ _)
    simp only [utf8.validFrom, hb, if_true]
    exact ih (fun c hc => h c (List.mem_cons_of_mem _ hc))

theorem hex.encodeByte_all_ascii (v : Byte) :
    (hex.encodeByte v).all (fun b => decide (b.val < 0x80)) = true := by
  revert v; decide

theorem hex.encodeByte_ascii (v : Byte) : ∀ b ∈ hex.encodeByte v, b.val < 0x80 := by
  intro b hb
  have h := List.all_eq_true.mp (hex.encodeByte_all_ascii v) b hb
  exact of_decide_eq_true h

theorem hex.EncodeToString_ascii (s : GoString) : ∀ b ∈ hex.EncodeToString s, b.val < 0x80 := by
  induction s with
  | nil => intro b hb; simp [hex.EncodeToString] at hb
  | cons v rest ih =>
    intro b hb
    simp only [hex.EncodeToString, List.mem_append] at hb
    rcases hb with hb | hb
    · exact hex.encodeByte_ascii v b hb
    · exact ih b hb

/-- A hexadecimal encoding is rendered as itself. -/
theorem json.stringValue_hex (s : GoString) :
    json.stringValue (hex.EncodeToString s) = hex.EncodeToString s :=
  json.stringValue_of_valid _ (utf8.ValidString_of_ascii _ (hex.EncodeToString_ascii s))

/-- The response of a callback with all three fields present and non-empty. -/
theorem callback_response (Getenv : GoString → GoString) (body : GoString)
    (m : url.Values) (paymentID orderID signature : GoString) (ps os ss : List GoString)
    (hparse : url.ParseQuery body = (m, none))
    (hp : url.Values.lookup m (ascii "razorpay_payment_id") = some (paymentID :: ps))
    (hp0 : paymentID ≠ [])
    (ho : url.Values.lookup m (ascii "razorpay_order_id") = some (orderID :: os))
    (ho0 : orderID ≠ [])
    (hs : url.Values.lookup m (ascii "razorpay_signature") = some (signature :: ss))
    (hs0 : signature ≠ []) :
    (PaymentGatewayCallback Getenv (.ok body)).2.response =
      if signature = hex.EncodeToString (hmac.Sum (Getenv (ascii "RAZORPAY_KEY_SECRET"))
          (orderID ++ ascii "|" ++ paymentID)) then
        some (Response.mk 200 (JSONValue.object [(ascii "paymentData", JSONValue.object
          [(ascii "razorpay_payment_id", JSONValue.string (json.stringValue paymentID)),
           (ascii "razorpay_order_id", JSONValue.string (json.stringValue orderID)),
           (ascii "razorpay_signature", JSONValue.string signature)])]))
      else
        some (Response.mk 400
          (JSONValue.object [(ascii "error", JSONValue.string (ascii "failed to verify"))])) := by
  rw [callback_all_present Getenv body m paymentID orderID signature ps os ss hparse hp hp0 ho
    ho0 hs hs0]
  have hk1 : json.stringValue (ascii "paymentData") = ascii "paymentData" := by decide
  have hk2 : json.stringValue (ascii "error") = ascii "error" := by decide
  have hk3 : json.stringValue (ascii "failed to verify") = ascii "failed to verify" := by decide
  by_cases hsig : signature = hex.EncodeToString
      (hmac.Sum (Getenv (ascii "RAZORPAY_KEY_SECRET")) (orderID ++ ascii "|" ++ paymentID))
  · have hv : verifyRazorpaySignature orderID paymentID signature
        (Getenv (ascii "RAZORPAY_KEY_SECRET")) = true :=
      (verifyRazorpaySignature_iff _ _ _ _).mpr hsig
    have hecho : json.stringValue signature = signature := by
      rw [hsig]; exact json.stringValue_hex _
    rw [if_pos hv, if_pos hsig]
    simp only [Outcome.response, json.document, Payment.document, Option.map, hk1, hecho]
  · have hv : ¬ verifyRazorpaySignature orderID paymentID signature
        (Getenv (ascii "RAZORPAY_KEY_SECRET")) = true :=
      fun h => hsig ((verifyRazorpaySignature_iff _ _ _ _).mp h)
    rw [if_neg hv, if_neg hsig]
    simp only [Outcome.response, json.document, Option.map, hk2, hk3]

/-! ## Test vectors

The embedding of `crypto/sha256` and `crypto/hmac` computes the published digests. -/

/-- SHA-256 of `"abc"` (FIPS 180-4, appendix B.1). -/
theorem sha256.Sum256_abc :
    hex.EncodeToString (sha256.Sum256 (ascii "abc")) =
      ascii "ba7816bf8f01cfea414140de5dae2223b00361a396177a9cb410ff61f20015ad" := by
  decide

/-- HMAC-SHA256, test case 2 of RFC 4231. -/
theorem hmac.Sum_rfc4231_case2 :
    hex.EncodeToString (hmac.Sum (ascii "Jefe") (ascii "what do ya want for nothing?")) =
      ascii "5bdcc146bf60754e6a042426089575c75a003f089d2739839dec58b964ec3843" := by
  decide

/-- The signature of the example of the specification: secret `s3cr3t`, order
`order_abc`, payment `pay_xyz`. -/
theorem computedSignature_example :
    computedSignature (ascii "order_abc") (ascii "pay_xyz") (ascii "s3cr3t") =
      ascii "ee21698235c31aef5bb049b86d1c00014db7de75dbe78cb4ed9ffa8e90855655" := by
  decide

/-! ## Flipping a bit -/

theorem Byte.flip_ne (b : Byte) (k : Nat) (hk : k < 8) : b ^^^ Fin.ofNat (2 ^ k) ≠ b := by
  interval_cases k <;> (revert b; decide)

theorem length_flipBit (s : GoString) (i k : Nat) : (flipBit s i k).length = s.length := by
  induction s generalizing i with
  | nil => rfl
  | cons b rest ih =>
    cases i with
    | zero => simp [flipBit]
    | succ i => simp [flipBit, ih]

theorem flipBit_ne (s : GoString) (i k : Nat) (hi : i < s.length) (hk : k < 8) :
    flipBit s i k ≠ s := by
  induction s generalizing i with
  | nil => simp at hi
  | cons b rest ih =>
    cases i with
    | zero =>
      intro h
      simp only [flipBit, List.cons.injEq, and_true] at h
      exact Byte.flip_ne b k hk h
    | succ i =>
      intro h
      simp only [flipBit, List.cons.injEq, true_and] at h
      exact ih i (by simpa using hi) h

/-! ## Claims about `verifyRazorpaySignature` -/

/-- C1: for every `orderID`, `paymentID` and `secret` (any byte strings, the empty one
included), `verifyRazorpaySignature` returns `true` when the signature is the
lowercase hexadecimal encoding of HMAC-SHA256 with key `secret` over the message
`orderID + "|" + paymentID`. -/
theorem verifyRazorpaySignature_accepts_hmac (orderID paymentID secret : GoString) :
    verifyRazorpaySignature orderID paymentID
      (hex.EncodeToString (hmac.Sum secret (orderID ++ ascii "|" ++ paymentID))) secret = true :=
  (verifyRazorpaySignature_iff orderID paymentID _ secret).mpr rfl

/-- C2: for every `orderID`, `paymentID` and `secret`, a signature obtained from the
correct hexadecimal HMAC-SHA256 signature (64 bytes) by flipping bit `k` of its byte
at index `i` is rejected: `verifyRazorpaySignature` returns `false`. -/
theorem verifyRazorpaySignature_rejects_flipped_bit (orderID paymentID secret : GoString)
    (i k : Nat) (hi : i < 64) (hk : k < 8) :
    verifyRazorpaySignature orderID paymentID
      (flipBit (hex.EncodeToString (hmac.Sum secret (orderID ++ ascii "|" ++ paymentID))) i k)
      secret = false := by
  rw [verifyRazorpaySignature_eq_false_iff]
  have hlen := length_computedSignature orderID paymentID secret
  exact flipBit_ne (computedSignature orderID paymentID secret) i k (by rw [hlen]; exact hi) hk

/-- Witness of C2: the lowest bit of the last byte of the signature of the example of
the specification is flipped. -/
theorem verifyRazorpaySignature_rejects_flipped_bit_witness :
    63 < 64 ∧ 0 < 8 ∧
    verifyRazorpaySignature (ascii "order_abc") (ascii "pay_xyz")
      (flipBit (hex.EncodeToString
        (hmac.Sum (ascii "s3cr3t") (ascii "order_abc" ++ ascii "|" ++ ascii "pay_xyz"))) 63 0)
      (ascii "s3cr3t") = false :=
  ⟨by decide, by decide,
    verifyRazorpaySignature_rejects_flipped_bit (ascii "order_abc") (ascii "pay_xyz")
      (ascii "s3cr3t") 63 0 (by decide) (by decide)⟩

/-- C9: `verifyRazorpaySignature` compares the computed hexadecimal digest with the
supplied signature by `subtle.ConstantTimeCompare`, and the number of loop
iterations this comparison executes is the same for any two supplied signatures of
the same length, wherever each of them first differs from the computed one. -/
theorem verifyRazorpaySignature_comparison_constant_time
    (orderID paymentID secret signature1 signature2 : GoString)
    (hlen : signature1.length = signature2.length) :
    verifyRazorpaySignature orderID paymentID signature1 secret =
        (subtle.ConstantTimeCompare
          (hex.EncodeToString (hmac.Sum secret (orderID ++ ascii "|" ++ paymentID)))
          signature1 == 1) ∧
      verifyComparisonSteps orderID paymentID signature1 secret =
        verifyComparisonSteps orderID paymentID signature2 secret := by
  refine ⟨rfl, ?_⟩
  rw [verifyComparisonSteps_eq, verifyComparisonSteps_eq, hlen]

/-- Witness of C9: two signatures that differ from the computed one first at byte 0 and
first at byte 63. -/
theorem verifyRazorpaySignature_comparison_constant_time_witness :
    (flipBit (computedSignature (ascii "order_abc") (ascii "pay_xyz") (ascii "s3cr3t")) 0 0).length =
      (flipBit (computedSignature (ascii "order_abc") (ascii "pay_xyz") (ascii "s3cr3t")) 63 0).length ∧
    verifyComparisonSteps (ascii "order_abc") (ascii "pay_xyz")
        (flipBit (computedSignature (ascii "order_abc") (ascii "pay_xyz") (ascii "s3cr3t")) 0 0)
        (ascii "s3cr3t") =
      verifyComparisonSteps (ascii "order_abc") (ascii "pay_xyz")
        (flipBit (computedSignature (ascii "order_abc") (ascii "pay_xyz") (ascii "s3cr3t")) 63 0)
        (ascii "s3cr3t") :=
  ⟨by rw [length_flipBit, length_flipBit],
    (verifyRazorpaySignature_comparison_constant_time (ascii "order_abc") (ascii "pay_xyz")
      (ascii "s3cr3t") _ _ (by rw [length_flipBit, length_flipBit])).2⟩

/-- C10: the signed message does not determine the pair: whenever
`orderID1 + "|" + paymentID1 = orderID2 + "|" + paymentID2`, then for every signature
and secret `verifyRazorpaySignature` gives the same answer for both pairs. -/
theorem verifyRazorpaySignature_message_not_injective
    (orderID1 paymentID1 orderID2 paymentID2 signature secret : GoString)
    (hmsg : orderID1 ++ ascii "|" ++ paymentID1 = orderID2 ++ ascii "|" ++ paymentID2) :
    verifyRazorpaySignature orderID1 paymentID1 signature secret =
      verifyRazorpaySignature orderID2 paymentID2 signature secret := by
  unfold verifyRazorpaySignature computedSignature
  rw [hmsg]

/-- Witness of C10: the pairs `("a|b", "c")` and `("a", "b|c")` differ and have the same
signed message; the signature of the first pair is accepted for the second. -/
theorem verifyRazorpaySignature_message_not_injective_witness :
    (ascii "a|b", ascii "c") ≠ (ascii "a", ascii "b|c") ∧
    ascii "a|b" ++ ascii "|" ++ ascii "c" = ascii "a" ++ ascii "|" ++ ascii "b|c" ∧
    verifyRazorpaySignature (ascii "a", ascii "b|c").1 (ascii "a", ascii "b|c").2
      (computedSignature (ascii "a|b") (ascii "c") (ascii "s3cr3t")) (ascii "s3cr3t") = true :=
  ⟨by decide, by decide,
    (verifyRazorpaySignature_message_not_injective (ascii "a|b") (ascii "c") (ascii "a")
      (ascii "b|c") (computedSignature (ascii "a|b") (ascii "c") (ascii "s3cr3t"))
      (ascii "s3cr3t") (by decide)).symm.trans
      ((verifyRazorpaySignature_iff _ _ _ _).mpr rfl)⟩

/-! ## Claims about `PaymentGatewayCallback` -/

/-- The claim C3 as written fails: the body holds the three fields, all non-empty, and
its signature is the hexadecimal HMAC-SHA256 of `orderID + "|" + paymentID`; the
answer is 200, but its `razorpay_payment_id` is U+FFFD (bytes `EF BF BD`) and not
the extracted value, the byte `FF`. -/
theorem PaymentGatewayCallback_echo_not_exact :
    url.ParseQuery invalidUTF8Body =
        ([(ascii "razorpay_payment_id", [[(0xFF : Byte)]]),
          (ascii "razorpay_order_id", [ascii "order_abc"]),
          (ascii "razorpay_signature",
            [ascii "b3de513b33068acca961f443c1bfede6c57e1becfc564283a538c0bc6a8132b6"])],
          none) ∧
      ascii "b3de513b33068acca961f443c1bfede6c57e1becfc564283a538c0bc6a8132b6" =
        hex.EncodeToString (hmac.Sum (exampleEnv (ascii "RAZORPAY_KEY_SECRET"))
          (ascii "order_abc" ++ ascii "|" ++ [(0xFF : Byte)])) ∧
      (PaymentGatewayCallback exampleEnv (.ok invalidUTF8Body)).2.response =
        some (Response.mk 200 (JSONValue.object [(ascii "paymentData", JSONValue.object
          [(ascii "razorpay_payment_id",
              JSONValue.string [(0xEF : Byte), (0xBF : Byte), (0xBD : Byte)]),
           (ascii "razorpay_order_id", JSONValue.string (ascii "order_abc")),
           (ascii "razorpay_signature", JSONValue.string
             (ascii "b3de513b33068acca961f443c1bfede6c57e1becfc564283a538c0bc6a8132b6"))])])) ∧
      (PaymentGatewayCallback exampleEnv (.ok invalidUTF8Body)).2.response ≠
        some (Response.mk 200 (JSONValue.object [(ascii "paymentData", JSONValue.object
          [(ascii "razorpay_payment_id", JSONValue.string [(0xFF : Byte)]),
           (ascii "razorpay_order_id", JSONValue.string (ascii "order_abc")),
           (ascii "razorpay_signature", JSONValue.string
             (ascii "b3de513b33068acca961f443c1bfede6c57e1becfc564283a538c0bc6a8132b6"))])])) := by
  have hparse : url.ParseQuery invalidUTF8Body =
      ([(ascii "razorpay_payment_id", [[(0xFF : Byte)]]),
        (ascii "razorpay_order_id", [ascii "order_abc"]),
        (ascii "razorpay_signature",
          [ascii "b3de513b33068acca961f443c1bfede6c57e1becfc564283a538c0bc6a8132b6"])],
        none) := by decide
  have hsig : ascii "b3de513b33068acca961f443c1bfede6c57e1becfc564283a538c0bc6a8132b6" =
      hex.EncodeToString (hmac.Sum (exampleEnv (ascii "RAZORPAY_KEY_SECRET"))
        (ascii "order_abc" ++ ascii "|" ++ [(0xFF : Byte)])) := by decide
  have hresp := callback_response exampleEnv invalidUTF8Body _ [(0xFF : Byte)]
    (ascii "order_abc")
    (ascii "b3de513b33068acca961f443c1bfede6c57e1becfc564283a538c0bc6a8132b6") [] [] []
    hparse (by decide) (by decide) (by decide) (by decide) (by decide) (by decide)
  rw [if_pos hsig] at hresp
  have h1 : json.stringValue [(0xFF : Byte)] = [(0xEF : Byte), (0xBF : Byte), (0xBD : Byte)] := by
    decide
  have h2 : json.stringValue (ascii "order_abc") = ascii "order_abc" := by decide
  rw [h1, h2] at hresp
  refine ⟨hparse, hsig, hresp, ?_⟩
  rw [hresp]
  intro hc
  simp only [Option.some.injEq, Response.mk.injEq, JSONValue.object.injEq, List.cons.injEq,
    Prod.mk.injEq, JSONValue.string.injEq, true_and, and_true] at hc
  revert hc
  decide

/-- C3, amended: for every callback body that parses as form data with the three fields
`razorpay_payment_id`, `razorpay_order_id` and `razorpay_signature` present and
non-empty: when the supplied signature equals the hexadecimal HMAC-SHA256 of
`orderID + "|" + paymentID` under the configured secret, the response is 200 with
`paymentData` holding the three extracted values as JSON strings, in which every
byte that is not part of a valid UTF-8 encoding is replaced by U+FFFD, so that the
signature is echoed exactly, and the payment id and the order id are echoed
exactly when they are valid UTF-8; otherwise the response is 400 with
`{"error": "failed to verify"}`. -/
theorem PaymentGatewayCallback_verified_response (Getenv : GoString → GoString)
    (body : GoString) (m : url.Values) (paymentID orderID signature : GoString)
    (ps os ss : List GoString)
    (hparse : url.ParseQuery body = (m, none))
    (hp : url.Values.lookup m (ascii "razorpay_payment_id") = some (paymentID :: ps))
    (hp0 : paymentID ≠ [])
    (ho : url.Values.lookup m (ascii "razorpay_order_id") = some (orderID :: os))
    (ho0 : orderID ≠ [])
    (hs : url.Values.lookup m (ascii "razorpay_signature") = some (signature :: ss))
    (hs0 : signature ≠ []) :
    ((PaymentGatewayCallback Getenv (.ok body)).2.response =
      if signature = hex.EncodeToString (hmac.Sum (Getenv (ascii "RAZORPAY_KEY_SECRET"))
          (orderID ++ ascii "|" ++ paymentID)) then
        some (Response.mk 200 (JSONValue.object [(ascii "paymentData", JSONValue.object
          [(ascii "razorpay_payment_id", JSONValue.string (json.stringValue paymentID)),
           (ascii "razorpay_order_id", JSONValue.string (json.stringValue orderID)),
           (ascii "razorpay_signature", JSONValue.string signature)])]))
      else
        some (Response.mk 400
          (JSONValue.object [(ascii "error", JSONValue.string (ascii "failed to verify"))]))) ∧
      (utf8.ValidString paymentID = true → json.stringValue paymentID = paymentID) ∧
      (utf8.ValidString orderID = true → json.stringValue orderID = orderID) :=
  ⟨callback_response Getenv body m paymentID orderID signature ps os ss hparse hp hp0 ho ho0
      hs hs0,
    json.stringValue_of_valid paymentID, json.stringValue_of_valid orderID⟩

/-- Witness of C3, amended: the example of the specification is answered with 200 and
the three fields echoed exactly; with the last hexadecimal digit of the signature
changed it is answered with 400. -/
theorem PaymentGatewayCallback_verified_response_witness :
    (PaymentGatewayCallback exampleEnv (.ok exampleBody)).2.response =
        some (Response.mk 200 (JSONValue.object [(ascii "paymentData", JSONValue.object
          [(ascii "razorpay_payment_id", JSONValue.string (ascii "pay_xyz")),
           (ascii "razorpay_order_id", JSONValue.string (ascii "order_abc")),
           (ascii "razorpay_signature", JSONValue.string
             (ascii "ee21698235c31aef5bb049b86d1c00014db7de75dbe78cb4ed9ffa8e90855655"))])])) ∧
      (PaymentGatewayCallback exampleEnv (.ok tamperedBody)).2.response =
        some (Response.mk 400
          (JSONValue.object [(ascii "error", JSONValue.string (ascii "failed to verify"))])) := by
  have h1 := PaymentGatewayCallback_verified_response exampleEnv exampleBody
    [(ascii "razorpay_payment_id", [ascii "pay_xyz"]),
     (ascii "razorpay_order_id", [ascii "order_abc"]),
     (ascii "razorpay_signature",
       [ascii "ee21698235c31aef5bb049b86d1c00014db7de75dbe78cb4ed9ffa8e90855655"])]
    (ascii "pay_xyz") (ascii "order_abc")
    (ascii "ee21698235c31aef5bb049b86d1c00014db7de75dbe78cb4ed9ffa8e90855655") [] [] []
    (by decide) (by decide) (by decide) (by decide) (by decide) (by decide) (by decide)
  have h2 := PaymentGatewayCallback_verified_response exampleEnv tamperedBody
    [(ascii "razorpay_payment_id", [ascii "pay_xyz"]),
     (ascii "razorpay_order_id", [ascii "order_abc"]),
     (ascii "razorpay_signature",
       [ascii "ee21698235c31aef5bb049b86d1c00014db7de75dbe78cb4ed9ffa8e90855654"])]
    (ascii "pay_xyz") (ascii "order_abc")
    (ascii "ee21698235c31aef5bb049b86d1c00014db7de75dbe78cb4ed9ffa8e90855654") [] [] []
    (by decide) (by decide) (by decide) (by decide) (by decide) (by decide) (by decide)
  refine ⟨?_, ?_⟩
  · rw [h1.1, if_pos (by decide), h1.2.1 (by decide), h1.2.2 (by decide)]
  · rw [h2.1, if_neg (by decide)]

/-- C5: for every parseable callback body in which at least one required field is
absent or empty, the fields are checked in the order `payment_id`, `order_id`,
`signature`; the handler answers 400 naming the first field of that order that is
absent or empty, and `verifyRazorpaySignature` is not called. -/
theorem PaymentGatewayCallback_names_first_missing (Getenv : GoString → GoString)
    (body : GoString) (m : url.Values) (hparse : url.ParseQuery body = (m, none))
    (hmiss : ∃ g ∈ requiredFields, absentOrEmpty m (ascii g.1) = true) :
    ∃ f, requiredFields.find? (fun g => absentOrEmpty m (ascii g.1)) = some f ∧
      (PaymentGatewayCallback Getenv (.ok body)).2 =
        Outcome.JSON 400
          (Any.map [(ascii "error", Any.string (ascii ("Missing " ++ f.2 ++ " parameter")))]) ∧
      ∀ e ∈ (PaymentGatewayCallback Getenv (.ok body)).1, e.isVerify = false := by
  have htrace : ∀ e ∈ fieldCheckTrace body, e.isVerify = false := by
    intro e he
    simp only [fieldCheckTrace, List.mem_singleton] at he
    subst he
    rfl
  cases hp : absentOrEmpty m (ascii "razorpay_payment_id") with
  | true =>
    refine ⟨("razorpay_payment_id", "payment_id"), ?_, ?_, ?_⟩
    · simp [requiredFields, List.find?, hp]
    · rw [callback_missing_payment_id Getenv body m hparse hp]; rfl
    · rw [callback_missing_payment_id Getenv body m hparse hp]; exact htrace
  | false =>
    cases ho : absentOrEmpty m (ascii "razorpay_order_id") with
    | true =>
      refine ⟨("razorpay_order_id", "order_id"), ?_, ?_, ?_⟩
      · simp [requiredFields, List.find?, hp, ho]
      · rw [callback_missing_order_id Getenv body m hparse hp ho]; rfl
      · rw [callback_missing_order_id Getenv body m hparse hp ho]; exact htrace
    | false =>
      cases hs : absentOrEmpty m (ascii "razorpay_signature") with
      | true =>
        refine ⟨("razorpay_signature", "signature"), ?_, ?_, ?_⟩
        · simp [requiredFields, List.find?, hp, ho, hs]
        · rw [callback_missing_signature Getenv body m hparse hp ho hs]; rfl
        · rw [callback_missing_signature Getenv body m hparse hp ho hs]; exact htrace
      | false =>
        obtain ⟨g, hg, hgm⟩ := hmiss
        simp only [requiredFields, List.mem_cons, List.mem_singleton, List.mem_nil_iff,
          or_false] at hg
        rcases hg with rfl | rfl | rfl
        · rw [hp] at hgm; exact absurd hgm (by decide)
        · rw [ho] at hgm; exact absurd hgm (by decide)
        · rw [hs] at hgm; exact absurd hgm (by decide)

/-- Witness of C5: the payment id is present, the first value of the order id is the
empty string (a second value is not), and the signature is absent: the answer names
`order_id`. -/
theorem PaymentGatewayCallback_names_first_missing_witness :
    ∃ f, requiredFields.find? (fun g => absentOrEmpty
        [(ascii "razorpay_payment_id", [ascii "pay_1"]),
         (ascii "razorpay_order_id", [[], ascii "order_2"])] (ascii g.1)) = some f ∧
      (PaymentGatewayCallback exampleEnv (.ok (ascii
        "razorpay_payment_id=pay_1&razorpay_order_id=&razorpay_order_id=order_2"))).2 =
        Outcome.JSON 400
          (Any.map [(ascii "error", Any.string (ascii ("Missing " ++ f.2 ++ " parameter")))]) ∧
      ∀ e ∈ (PaymentGatewayCallback exampleEnv (.ok (ascii
        "razorpay_payment_id=pay_1&razorpay_order_id=&razorpay_order_id=order_2"))).1,
        e.isVerify = false :=
  PaymentGatewayCallback_names_first_missing exampleEnv
    (ascii "razorpay_payment_id=pay_1&razorpay_order_id=&razorpay_order_id=order_2")
    [(ascii "razorpay_payment_id", [ascii "pay_1"]),
     (ascii "razorpay_order_id", [[], ascii "order_2"])]
    (by decide) ⟨("razorpay_order_id", "order_id"), by decide, by decide⟩

/-- The claim C4 as written fails: with only the signature in the body, the field
`order_id` is absent, yet the answer names `payment_id`, not `order_id`. -/
theorem PaymentGatewayCallback_missing_order_id_not_named :
    url.ParseQuery (ascii "razorpay_signature=abc") =
        ([(ascii "razorpay_signature", [ascii "abc"])], none) ∧
      absentOrEmpty [(ascii "razorpay_signature", [ascii "abc"])]
        (ascii "razorpay_order_id") = true ∧
      (PaymentGatewayCallback exampleEnv (.ok (ascii "razorpay_signature=abc"))).2 =
        Outcome.JSON 400
          (Any.map [(ascii "error", Any.string (ascii "Missing payment_id parameter"))]) ∧
      (PaymentGatewayCallback exampleEnv (.ok (ascii "razorpay_signature=abc"))).2 ≠
        Outcome.JSON 400
          (Any.map [(ascii "error", Any.string (ascii "Missing order_id parameter"))]) := by
  have h := callback_missing_payment_id exampleEnv (ascii "razorpay_signature=abc")
    [(ascii "razorpay_signature", [ascii "abc"])] (by decide) (by decide)
  refine ⟨by decide, by decide, ?_, ?_⟩
  · rw [h]; rfl
  · rw [h]
    intro hc
    simp only [missingParameter, http.StatusBadRequest, Outcome.JSON.injEq, Any.map.injEq,
      List.cons.injEq, Prod.mk.injEq, Any.string.injEq, true_and, and_true] at hc
    revert hc
    decide

/-- C4, amended: for every parseable callback body and each of the three fields, if the
field is absent or empty and every field checked before it is present and
non-empty, the handler answers 400 with `Missing <field> parameter` naming that
field, whatever the fields checked after it. -/
theorem PaymentGatewayCallback_names_missing_after_present (Getenv : GoString → GoString)
    (body : GoString) (m : url.Values) (before after : List (String × String))
    (f : String × String) (hparse : url.ParseQuery body = (m, none))
    (hsplit : requiredFields = before ++ f :: after)
    (hbefore : ∀ g ∈ before, absentOrEmpty m (ascii g.1) = false)
    (hf : absentOrEmpty m (ascii f.1) = true) :
    (PaymentGatewayCallback Getenv (.ok body)).2 =
      Outcome.JSON 400
        (Any.map [(ascii "error", Any.string (ascii ("Missing " ++ f.2 ++ " parameter")))]) := by
  rcases before with _ | ⟨a, _ | ⟨b, _ | ⟨c, rest⟩⟩⟩
  · simp only [requiredFields, List.nil_append, List.cons.injEq] at hsplit
    obtain ⟨rfl, -⟩ := hsplit
    rw [callback_missing_payment_id Getenv body m hparse hf]; rfl
  · simp only [requiredFields, List.cons_append, List.nil_append, List.cons.injEq] at hsplit
    obtain ⟨rfl, rfl, -⟩ := hsplit
    have hp := hbefore _ (List.mem_singleton.mpr rfl)
    rw [callback_missing_order_id Getenv body m hparse hp hf]; rfl
  · simp only [requiredFields, List.cons_append, List.nil_append, List.cons.injEq] at hsplit
    obtain ⟨rfl, rfl, rfl, -⟩ := hsplit
    have hp := hbefore _ (List.mem_cons_self _ _)
    have ho := hbefore _ (List.mem_cons_of_mem _ (List.mem_singleton.mpr rfl))
    rw [callback_missing_signature Getenv body m hparse hp ho hf]; rfl
  · simp [requiredFields] at hsplit

/-- Witness of C4, amended: payment id and order id present, signature empty. -/
theorem PaymentGatewayCallback_names_missing_after_present_witness :
    (PaymentGatewayCallback exampleEnv (.ok (ascii
      "razorpay_order_id=order_abc&razorpay_signature=&razorpay_payment_id=pay_xyz"))).2 =
      Outcome.JSON 400
        (Any.map [(ascii "error", Any.string (ascii ("Missing " ++ "signature" ++ " parameter")))]) :=
  PaymentGatewayCallback_names_missing_after_present exampleEnv
    (ascii "razorpay_order_id=order_abc&razorpay_signature=&razorpay_payment_id=pay_xyz")
    [(ascii "razorpay_order_id", [ascii "order_abc"]), (ascii "razorpay_signature", [[]]),
     (ascii "razorpay_payment_id", [ascii "pay_xyz"])]
    [("razorpay_payment_id", "payment_id"), ("razorpay_order_id", "order_id")] []
    ("razorpay_signature", "signature") (by decide) (by decide) (by decide) (by decide)

/-- C6: for every callback body on which `url.ParseQuery` fails, the handler answers 500
with the error `Failed to parse query parameters` and does not answer 400, whatever
fields and signature the body holds. -/
theorem PaymentGatewayCallback_parse_failure (Getenv : GoString → GoString) (body : GoString)
    (e : url.ParseError) (hfail : (url.ParseQuery body).2 = some e) :
    (PaymentGatewayCallback Getenv (.ok body)).2 =
        Outcome.JSON 500
          (Any.map [(ascii "error", Any.string (ascii "Failed to parse query parameters"))]) ∧
      ∀ obj, (PaymentGatewayCallback Getenv (.ok body)).2 ≠ Outcome.JSON 400 obj := by
  have hout : (PaymentGatewayCallback Getenv (.ok body)).2 =
      Outcome.JSON 500
        (Any.map [(ascii "error", Any.string (ascii "Failed to parse query parameters"))]) := by
    obtain ⟨m, hq⟩ : ∃ m, url.ParseQuery body = (m, some e) :=
      ⟨(url.ParseQuery body).1, by rw [← hfail]⟩
    unfold PaymentGatewayCallback
    simp only [hq]
    rfl
  refine ⟨hout, ?_⟩
  intro obj hc
  rw [hout] at hc
  injection hc with hcode _
  exact absurd hcode (by decide)

/-- Witness of C6: the body of the example of the specification, valid signature
included, followed by a field with a malformed escape. -/
theorem PaymentGatewayCallback_parse_failure_witness :
    (url.ParseQuery (exampleBody ++ ascii "&note=100%")).2 =
        some (url.ParseError.escape (ascii "%")) ∧
      (PaymentGatewayCallback exampleEnv (.ok (exampleBody ++ ascii "&note=100%"))).2 =
        Outcome.JSON 500
          (Any.map [(ascii "error", Any.string (ascii "Failed to parse query parameters"))]) :=
  ⟨by decide,
    (PaymentGatewayCallback_parse_failure exampleEnv (exampleBody ++ ascii "&note=100%")
      (url.ParseError.escape (ascii "%")) (by decide)).1⟩

/-! ## Claims about `createRazorpayOrder` -/

/-- C7: for every order object the gateway returns successfully, the handler answers 200
with a body whose `key` is the configured `RAZORPAY_KEY_ID` and whose `id` and
`amount` are the order's `id` and `amount` (`nil` when the order lacks them); the
`key` does not depend on the order. -/
theorem createRazorpayOrder_success (Getenv : GoString → GoString) (create : Gateway)
    (order : GoMap)
    (hok : create (Getenv (ascii "RAZORPAY_KEY_ID")) (Getenv (ascii "RAZORPAY_KEY_SECRET"))
      orderData = .ok order) :
    (createRazorpayOrder Getenv create).2 =
      Outcome.JSON 200 (Any.map
        [(ascii "id", GoMap.index order (ascii "id")),
         (ascii "amount", GoMap.index order (ascii "amount")),
         (ascii "key", Any.string (Getenv (ascii "RAZORPAY_KEY_ID")))]) := by
  unfold createRazorpayOrder
  simp only [hok]
  rfl

/-- Witness of C7: an order that carries a `key` of its own and an `id`, and lacks
`amount`. -/
theorem createRazorpayOrder_success_witness :
    (createRazorpayOrder exampleEnv (fun _ _ _ => .ok
        [(ascii "key", Any.string (ascii "other_key")),
         (ascii "id", Any.string (ascii "order_abc"))])).2 =
      Outcome.JSON 200 (Any.map
        [(ascii "id", Any.string (ascii "order_abc")),
         (ascii "amount", Any.nil),
         (ascii "key", Any.string (ascii "rzp_test_key"))]) :=
  (createRazorpayOrder_success exampleEnv (fun _ _ _ => .ok
    [(ascii "key", Any.string (ascii "other_key")),
     (ascii "id", Any.string (ascii "order_abc"))]) _ rfl).trans rfl

/-- C8: for every error the gateway's order-creation call returns, the handler answers
500 with `{error: <the error's text>}` after exactly one call of the gateway, made
with the fixed payload (amount 5000, currency INR, receipt `receipt#1`,
payment_capture 1), and gives no 200 answer. -/
theorem createRazorpayOrder_failure (Getenv : GoString → GoString) (create : Gateway)
    (err : GoError)
    (herr : create (Getenv (ascii "RAZORPAY_KEY_ID")) (Getenv (ascii "RAZORPAY_KEY_SECRET"))
      [(ascii "amount", Any.int 5000), (ascii "currency", Any.string (ascii "INR")),
       (ascii "receipt", Any.string (ascii "receipt#1")),
       (ascii "payment_capture", Any.int 1)] = .error err) :
    createRazorpayOrder Getenv create =
        ([Event.orderCreate (Getenv (ascii "RAZORPAY_KEY_ID"))
            (Getenv (ascii "RAZORPAY_KEY_SECRET"))
            [(ascii "amount", Any.int 5000), (ascii "currency", Any.string (ascii "INR")),
             (ascii "receipt", Any.string (ascii "receipt#1")),
             (ascii "payment_capture", Any.int 1)]],
          Outcome.JSON 500 (Any.map [(ascii "error", Any.string err.Error)])) ∧
      ∀ obj, (createRazorpayOrder Getenv create).2 ≠ Outcome.JSON 200 obj := by
  have hout : createRazorpayOrder Getenv create =
      ([Event.orderCreate (Getenv (ascii "RAZORPAY_KEY_ID"))
          (Getenv (ascii "RAZORPAY_KEY_SECRET"))
          [(ascii "amount", Any.int 5000), (ascii "currency", Any.string (ascii "INR")),
           (ascii "receipt", Any.string (ascii "receipt#1")),
           (ascii "payment_capture", Any.int 1)]],
        Outcome.JSON 500 (Any.map [(ascii "error", Any.string err.Error)])) := by
    unfold createRazorpayOrder
    have herr2 : create (Getenv (ascii "RAZORPAY_KEY_ID"))
        (Getenv (ascii "RAZORPAY_KEY_SECRET")) orderData = .error err := herr
    simp only [herr2]
    rfl
  refine ⟨hout, ?_⟩
  intro obj hc
  rw [hout] at hc
  injection hc with hcode _
  exact absurd hcode (by decide)

/-- Witness of C8: a gateway that refuses every order. -/
theorem createRazorpayOrder_failure_witness :
    (createRazorpayOrder exampleEnv
        (fun _ _ _ => .error (GoError.mk (ascii "Authentication failed")))).2 =
      Outcome.JSON 500 (Any.map [(ascii "error", Any.string (ascii "Authentication failed"))]) :=
  congrArg Prod.snd (createRazorpayOrder_failure exampleEnv
    (fun _ _ _ => .error (GoError.mk (ascii "Authentication failed")))
    (GoError.mk (ascii "Authentication failed")) rfl).1
